import Mathlib

/-!
Verification of the session-lifecycle module (`src/python/workshop/main.py`).

The module orchestrates one conversational agent session against a remote
agent service: toolset assembly (`add_agent_tools`), initialization
(`initialize`, here `initializeAgent` since `initialize` is reserved in
Lean), resource teardown (`cleanup`), one streamed turn (`post_message`),
and the interactive loop (`main`).

Remote calls, the data engine and the configuration provider are external
collaborators; the embedding records each call as an event in a trace and
parameterizes each fallible call by an injected outcome (`Except`/`Option`
values standing for a returned value or a raised exception).  Python
string primitives used by the module (`str.replace`, `str.strip`,
`str.lower`) are embedded as executable Lean functions on character lists.
-/

namespace Workshop

/-- Python `str.strip()` (whitespace trimming on both ends), as used on the
prompt read by the interactive loop. -/
def pyStrip (s : String) : String :=
  String.mk (((s.data.dropWhile Char.isWhitespace).reverse.dropWhile Char.isWhitespace).reverse)

/-- Python `str.lower()`, as used for sentinel comparison. -/
def pyLower (s : String) : String :=
  String.mk (s.data.map Char.toLower)

/-- Python truthiness of an optional string value (`not x` is `true` exactly
for `None` and the empty string), as used by the two guards of `initialize`. -/
def pyFalsy : Option String → Bool
  | none => true
  | some s => s == ""

/-- One left-to-right pass of Python `str.replace` over a character list:
at each position, if the pattern starts there, the replacement is emitted
and the scan resumes after the pattern (the emitted replacement is never
rescanned); otherwise the character is kept.  The fuel argument makes the
recursion structural; one fuel unit is spent per step and each step consumes
at least one character, so fuel `s.length` always suffices. -/
def pyReplaceFuel (pat rep : List Char) : Nat → List Char → List Char
  | _, [] => []
  | 0, s => s
  | fuel + 1, c :: rest =>
    if pat.isPrefixOf (c :: rest) then
      rep ++ pyReplaceFuel pat rep fuel (List.drop (pat.length - 1) rest)
    else
      c :: pyReplaceFuel pat rep fuel rest

/-- Python `s.replace(pat, rep)` for the non-empty patterns used by the
module (the two placeholder tokens are non-empty string literals, so the
empty-pattern behaviour of Python is never exercised and is mapped to the
identity here). -/
def pyReplace (s pat rep : String) : String :=
  if pat.data.isEmpty then s
  else String.mk (pyReplaceFuel pat.data rep.data s.data.length s.data)

/-- Observable calls made by the module: remote service operations, data
engine operations, and user-visible logging. -/
inductive Ev where
  | createVectorStore
  | uploadFile
  | connectData
  | getSchema
  | loadInstructions
  | createAgent (instructions : String)
  | enableAutoCalls
  | createThread
  | logError (msg : String)
  | listFiles
  | deleteFile (id : String)
  | deleteThread (id : String)
  | deleteAgent (id : String)
  | closeData
  | createMessage (content : String)
  | streamRun
  | logPurple (msg : String)
  deriving DecidableEq, Repr

/-- The remote calls that create resources (file upload, vector-store
creation, agent creation, thread creation). -/
def isResourceCreate : Ev → Bool
  | Ev.uploadFile => true
  | Ev.createVectorStore => true
  | Ev.createAgent _ => true
  | Ev.createThread => true
  | _ => false

/-- The remote delete calls (file, thread, agent). -/
def isDeleteEv : Ev → Bool
  | Ev.deleteFile _ => true
  | Ev.deleteThread _ => true
  | Ev.deleteAgent _ => true
  | _ => false

/-- The placeholder substitution performed inside `initialize`: the schema
placeholder is replaced first, then, if a font file was uploaded, the font
placeholder is replaced in the resulting string (`main.py` lines 93-101). -/
def renderInstructions (template schema : String) (fontInfo : Option String) : String :=
  let instructions := pyReplace template "{database_schema_string}" schema
  match fontInfo with
  | some fid => pyReplace instructions "{font_file_id}" fid
  | none => instructions

/-- `add_agent_tools` (`main.py` lines 50-74): registers the function tool
(local, no remote call), creates the vector store for the tents data sheet,
adds the file-search and code-interpreter tools, uploads the font file and
attaches it.  `vsRes` and `fontRes` inject the outcome of the two remote
calls; on success the uploaded font file id is returned. -/
def add_agent_tools (vsRes : Except String Unit) (fontRes : Except String String) :
    List Ev × Except String String :=
  match vsRes with
  | Except.error e => ([Ev.createVectorStore], Except.error e)
  | Except.ok _ =>
    match fontRes with
    | Except.error e => ([Ev.createVectorStore, Ev.uploadFile], Except.error e)
    | Except.ok fid => ([Ev.createVectorStore, Ev.uploadFile], Except.ok fid)

/-- Injected outcomes of every fallible step of `initialize`, together with
the configuration values it reads (`INSTRUCTIONS_FILE` and
`Config.API_DEPLOYMENT_NAME`). -/
structure InitEnv where
  instructionsFile : Option String
  deployment : Option String
  vsRes : Except String Unit
  fontRes : Except String String
  connectRes : Option String
  schemaRes : Except String String
  loadRes : Except String String
  createAgentRes : Except String String
  enableRes : Option String
  createThreadRes : Except String String

/-- The body of the `try` block of `initialize` (`main.py` lines 92-121):
load the instruction template, render the placeholders, create the agent,
enable auto function calls, create the thread.  The second component is
`Except.error e` when the step raising `e` aborts the block. -/
def initTryBody (loadRes createAgentRes : Except String String) (enableRes : Option String)
    (createThreadRes : Except String String) (schema : String) (fontInfo : Option String) :
    List Ev × Except String (Option String × Option String) :=
  match loadRes with
  | Except.error e => ([Ev.loadInstructions], Except.error e)
  | Except.ok template =>
    match createAgentRes with
    | Except.error e =>
      ([Ev.loadInstructions, Ev.createAgent (renderInstructions template schema fontInfo)],
       Except.error e)
    | Except.ok agentId =>
      match enableRes with
      | some e =>
        ([Ev.loadInstructions, Ev.createAgent (renderInstructions template schema fontInfo),
          Ev.enableAutoCalls], Except.error e)
      | none =>
        match createThreadRes with
        | Except.error e =>
          ([Ev.loadInstructions, Ev.createAgent (renderInstructions template schema fontInfo),
            Ev.enableAutoCalls, Ev.createThread], Except.error e)
        | Except.ok threadId =>
          ([Ev.loadInstructions, Ev.createAgent (renderInstructions template schema fontInfo),
            Ev.enableAutoCalls, Ev.createThread],
           Except.ok (some agentId, some threadId))

/-- `initialize` (`main.py` lines 77-125).  The two configuration guards
return `(None, None)` before any remote call; `add_agent_tools`, the data
engine `connect` and the schema fetch run OUTSIDE the `try` block, so an
exception there propagates (second component `Except.error`); from
`load_instructions` onward the `try`/`except` turns any exception into a
logged `(None, None)` result. -/
def initializeAgent (env : InitEnv) : List Ev × Except String (Option String × Option String) :=
  if pyFalsy env.instructionsFile then ([], Except.ok (none, none))
  else if pyFalsy env.deployment then
    ([Ev.logError "MODEL_DEPLOYMENT_NAME environment variable is not set"],
     Except.ok (none, none))
  else
    match add_agent_tools env.vsRes env.fontRes with
    | (toolEvs, Except.error e) => (toolEvs, Except.error e)
    | (toolEvs, Except.ok fid) =>
      match env.connectRes with
      | some e => (toolEvs ++ [Ev.connectData], Except.error e)
      | none =>
        match env.schemaRes with
        | Except.error e => (toolEvs ++ [Ev.connectData, Ev.getSchema], Except.error e)
        | Except.ok schema =>
          match initTryBody env.loadRes env.createAgentRes env.enableRes
              env.createThreadRes schema (some fid) with
          | (tryEvs, Except.ok r) =>
            (toolEvs ++ Ev.connectData :: Ev.getSchema :: tryEvs, Except.ok r)
          | (tryEvs, Except.error e) =>
            (toolEvs ++ Ev.connectData :: Ev.getSchema ::
              (tryEvs ++
                [Ev.logError ("An error occurred initializing the agent: " ++ e),
                 Ev.logError "Please ensure you have enabled an instructions file."]),
             Except.ok (none, none))

/-- The successive module-level assignments to `INSTRUCTIONS_FILE`
(`main.py` lines 25 and 44-47), in program order. -/
def instructionsFileAssignments : List (Option String) :=
  [none,
   some "instructions/function_calling.txt",
   some "instructions/file_search.txt",
   some "instructions/code_interpreter.txt",
   some "instructions/code_interpreter_multilingual.txt"]

/-- The value of `INSTRUCTIONS_FILE` when `initialize` runs: last write
wins over the assignment sequence. -/
def INSTRUCTIONS_FILE : Option String :=
  instructionsFileAssignments.foldl (fun _ v => v) none

/-- The file-deletion loop of `cleanup` (`main.py` lines 131-132): delete
each listed file in order; `resF` injects a raised exception per file id.
A raised exception stops the loop and propagates (second component). -/
def deleteFilesLoop (resF : String → Option String) : List String → List Ev × Option String
  | [] => ([], none)
  | f :: rest =>
    match resF f with
    | some e => ([Ev.deleteFile f], some e)
    | none =>
      match deleteFilesLoop resF rest with
      | (tr, exc) => (Ev.deleteFile f :: tr, exc)

/-- `cleanup` (`main.py` lines 128-135): list all files held by the
service, delete each, delete the thread, delete the agent, close the data
engine.  `resF`, `resT`, `resA` inject a raised exception for a file
deletion, the thread deletion and the agent deletion; any raised exception
propagates immediately and the remaining calls are not made. -/
def cleanup (fids : List String) (resF : String → Option String) (resT resA : Option String)
    (tid aid : String) : List Ev × Option String :=
  match deleteFilesLoop resF fids with
  | (ftr, some e) => (Ev.listFiles :: ftr, some e)
  | (ftr, none) =>
    match resT with
    | some e => (Ev.listFiles :: (ftr ++ [Ev.deleteThread tid]), some e)
    | none =>
      match resA with
      | some e =>
        (Ev.listFiles :: (ftr ++ [Ev.deleteThread tid, Ev.deleteAgent aid]), some e)
      | none =>
        (Ev.listFiles :: (ftr ++ [Ev.deleteThread tid, Ev.deleteAgent aid, Ev.closeData]),
         none)

/-- The body of the `try` block of `post_message` (`main.py` lines 140-158):
append the user message, then open and drain the streamed run.  `cr` and
`sr` inject a raised exception from the two calls; the second component is
the exception escaping the block, if any. -/
def postMessageTry (content : String) (cr sr : Option String) : List Ev × Option String :=
  match cr with
  | some e => ([Ev.createMessage content], some e)
  | none =>
    match sr with
    | some e => ([Ev.createMessage content, Ev.streamRun], some e)
    | none => ([Ev.createMessage content, Ev.streamRun], none)

/-- `post_message` (`main.py` lines 138-162): the `try` body wrapped by the
`except` handler that reports the error to the user-visible channel.  The
second component is the exception escaping `post_message` itself. -/
def post_message (content : String) (cr sr : Option String) : List Ev × Option String :=
  match postMessageTry content cr sr with
  | (evs, some e) =>
    (evs ++ [Ev.logPurple ("An error occurred posting the message: " ++ e)], none)
  | (evs, none) => (evs, none)

/-- The interactive loop of `main` (`main.py` lines 178-188) over a finite
list of input lines: strip the line; skip it when blank; stop with the
lowered command when it is a sentinel; otherwise post it as a turn and
continue.  `outcome` injects the per-turn failure outcomes consumed by
`post_message`.  The second component is the sentinel that ended the loop,
or `none` when the input was exhausted (in the source, `input()` then
raises and `main` unwinds without cleanup). -/
def mainLoop (outcome : String → Option String × Option String) :
    List String → List Ev × Option String
  | [] => ([], none)
  | line :: rest =>
    if pyStrip line = "" then mainLoop outcome rest
    else if pyLower (pyStrip line) = "exit" ∨ pyLower (pyStrip line) = "save" then
      ([], some (pyLower (pyStrip line)))
    else
      ((post_message (pyStrip line) (outcome (pyStrip line)).1 (outcome (pyStrip line)).2).1
         ++ (mainLoop outcome rest).1,
       (mainLoop outcome rest).2)

/-- The post-initialization part of `main` (`main.py` lines 178-197): run
the loop, then skip cleanup on `save` and run `cleanup` on any other way
the loop ended with a command. -/
def mainRun (outcome : String → Option String × Option String) (inputs fids : List String)
    (resF : String → Option String) (resT resA : Option String) (tid aid : String) :
    List Ev :=
  match (mainLoop outcome inputs).2 with
  | some cmd =>
    if cmd = "save" then (mainLoop outcome inputs).1
    else (mainLoop outcome inputs).1 ++ (cleanup fids resF resT resA tid aid).1
  | none => (mainLoop outcome inputs).1

/-- A run in which the vector-store creation inside `add_agent_tools`
raises, everything else succeeding. -/
def envToolFail : InitEnv :=
  { instructionsFile := some "instructions/code_interpreter_multilingual.txt",
    deployment := some "gpt-4o",
    vsRes := Except.error "boom",
    fontRes := Except.ok "font-1",
    connectRes := none,
    schemaRes := Except.ok "schema",
    loadRes := Except.ok "template",
    createAgentRes := Except.ok "agent-1",
    enableRes := none,
    createThreadRes := Except.ok "thread-1" }

/-- A run in which agent creation (inside the try block) raises,
everything before it succeeding. -/
def envAgentFail : InitEnv :=
  { instructionsFile := some "instructions/code_interpreter_multilingual.txt",
    deployment := some "gpt-4o",
    vsRes := Except.ok (),
    fontRes := Except.ok "font-1",
    connectRes := none,
    schemaRes := Except.ok "schema",
    loadRes := Except.ok "template",
    createAgentRes := Except.error "agent-fail",
    enableRes := none,
    createThreadRes := Except.ok "thread-1" }

/-- A configuration with no instruction template selected. -/
def envNoTemplate : InitEnv :=
  { instructionsFile := none,
    deployment := some "gpt-4o",
    vsRes := Except.ok (),
    fontRes := Except.ok "font-1",
    connectRes := none,
    schemaRes := Except.ok "schema",
    loadRes := Except.ok "template",
    createAgentRes := Except.ok "agent-1",
    enableRes := none,
    createThreadRes := Except.ok "thread-1" }

/-- A fully successful run under the module-level template selection. -/
def envProvisionOk : InitEnv :=
  { instructionsFile := INSTRUCTIONS_FILE,
    deployment := some "gpt-4o",
    vsRes := Except.ok (),
    fontRes := Except.ok "font-1",
    connectRes := none,
    schemaRes := Except.ok "schema",
    loadRes := Except.ok "template",
    createAgentRes := Except.ok "agent-1",
    enableRes := none,
    createThreadRes := Except.ok "thread-1" }

/-! Helper lemmas. -/

theorem isPrefixOf_self (l : List Char) : l.isPrefixOf l = true := by
  induction l with
  | nil => rfl
  | cons a as ih => simp [List.isPrefixOf, ih]

theorem pyReplaceFuel_nil (pat rep : List Char) (fuel : Nat) :
    pyReplaceFuel pat rep fuel [] = [] := by
  cases fuel <;> rfl

theorem pyReplaceFuel_self (p : Char) (ps rep : List Char) :
    pyReplaceFuel (p :: ps) rep (ps.length + 1) (p :: ps) = rep := by
  have hpre : (p :: ps).isPrefixOf (p :: ps) = true := isPrefixOf_self _
  simp only [pyReplaceFuel, hpre, if_true, List.length_cons, Nat.add_sub_cancel,
    List.drop_length, pyReplaceFuel_nil, List.append_nil]

/-- A string consisting exactly of a non-empty pattern is replaced by the
replacement in one step, whatever the replacement contains: Python
`str.replace` never rescans the text it inserts. -/
theorem pyReplace_self_token (pat rep : String) (h : pat.data ≠ []) :
    pyReplace pat pat rep = rep := by
  rcases hd : pat.data with _ | ⟨p, ps⟩
  · exact absurd hd h
  · have : pyReplace pat pat rep =
        String.mk (pyReplaceFuel pat.data rep.data pat.data.length pat.data) := by
      simp [pyReplace, hd]
    rw [this, hd, List.length_cons, pyReplaceFuel_self]

theorem deleteFilesLoop_ok (resF : String → Option String) (h : ∀ f, resF f = none)
    (fids : List String) :
    deleteFilesLoop resF fids = (fids.map Ev.deleteFile, none) := by
  induction fids with
  | nil => rfl
  | cons f rest ih => simp [deleteFilesLoop, h f, ih]

theorem deleteFilesLoop_events (resF : String → Option String) (fids : List String)
    (e : Ev) (he : e ∈ (deleteFilesLoop resF fids).1) : ∃ f, e = Ev.deleteFile f := by
  induction fids with
  | nil => simp [deleteFilesLoop] at he
  | cons f rest ih =>
    rcases hf : resF f with _ | err
    · rcases hd : deleteFilesLoop resF rest with ⟨tr, exc⟩
      simp [deleteFilesLoop, hf, hd] at he
      rcases he with he | he
      · exact ⟨f, he⟩
      · exact ih (by rw [hd]; exact he)
    · simp [deleteFilesLoop, hf] at he
      exact ⟨f, he⟩

/-! Claim theorems about `cleanup` and instruction rendering. -/

/-- C3: in every invocation of `cleanup`, the delete calls occur in the
order: file deletions first (one per listed file), then the thread
deletion, then the agent deletion — whatever failures are injected, the
trace after the file listing is a block of file deletions followed by a
prefix of [delete thread, delete agent, close]; on the failure-free run the
trace is exactly that sequence. -/
theorem c3_cleanup_order (fids : List String) (resF : String → Option String)
    (resT resA : Option String) (tid aid : String) :
    (∃ l₁ l₂, (cleanup fids resF resT resA tid aid).1 = Ev.listFiles :: (l₁ ++ l₂) ∧
       (∀ e ∈ l₁, ∃ f, e = Ev.deleteFile f) ∧
       l₂ <+: [Ev.deleteThread tid, Ev.deleteAgent aid, Ev.closeData]) ∧
    cleanup fids (fun _ => none) none none tid aid =
      (Ev.listFiles :: (fids.map Ev.deleteFile ++
         [Ev.deleteThread tid, Ev.deleteAgent aid, Ev.closeData]), none) := by
  constructor
  · rcases hd : deleteFilesLoop resF fids with ⟨ftr, exc⟩
    have hev : ∀ e ∈ ftr, ∃ f, e = Ev.deleteFile f := by
      intro e he
      exact deleteFilesLoop_events resF fids e (by rw [hd]; exact he)
    cases exc with
    | some e =>
      exact ⟨ftr, [], by simp [cleanup, hd], hev, ⟨_, rfl⟩⟩
    | none =>
      cases resT with
      | some e => exact ⟨ftr, [Ev.deleteThread tid], by simp [cleanup, hd], hev,
          ⟨[Ev.deleteAgent aid, Ev.closeData], rfl⟩⟩
      | none =>
        cases resA with
        | some e => exact ⟨ftr, [Ev.deleteThread tid, Ev.deleteAgent aid],
            by simp [cleanup, hd], hev, ⟨[Ev.closeData], rfl⟩⟩
        | none => exact ⟨ftr, [Ev.deleteThread tid, Ev.deleteAgent aid, Ev.closeData],
            by simp [cleanup, hd], hev, ⟨[], by simp⟩⟩
  · simp [cleanup, deleteFilesLoop_ok (fun _ => none) (fun _ => rfl) fids]

/-- Witness for C3 at a concrete listing. -/
theorem c3_cleanup_order_witness :
    (∃ l₁ l₂, (cleanup ["f1"] (fun _ => none) none none "t" "a").1 =
       Ev.listFiles :: (l₁ ++ l₂) ∧
       (∀ e ∈ l₁, ∃ f, e = Ev.deleteFile f) ∧
       l₂ <+: [Ev.deleteThread "t", Ev.deleteAgent "a", Ev.closeData]) ∧
    cleanup ["f1"] (fun _ => none) none none "t" "a" =
      (Ev.listFiles :: (["f1"].map Ev.deleteFile ++
         [Ev.deleteThread "t", Ev.deleteAgent "a", Ev.closeData]), none) :=
  c3_cleanup_order ["f1"] (fun _ => none) none none "t" "a"

/-- C4: the claim is false — `cleanup` performs its deletions sequentially
with no exception isolation, so a failing file deletion prevents the
remaining file, thread and agent deletions from being attempted. -/
theorem c4_counterexample :
    cleanup ["f1", "f2"] (fun f => if f = "f1" then some "boom" else none) none none "t" "a" =
      ([Ev.listFiles, Ev.deleteFile "f1"], some "boom") ∧
    Ev.deleteFile "f2" ∉
      (cleanup ["f1", "f2"] (fun f => if f = "f1" then some "boom" else none)
        none none "t" "a").1 ∧
    Ev.deleteThread "t" ∉
      (cleanup ["f1", "f2"] (fun f => if f = "f1" then some "boom" else none)
        none none "t" "a").1 ∧
    Ev.deleteAgent "a" ∉
      (cleanup ["f1", "f2"] (fun f => if f = "f1" then some "boom" else none)
        none none "t" "a").1 := by
  decide

/-- C4 (amended): deletions are sequential without failure isolation: a
file deletion that raises makes `cleanup` propagate that exception at once,
skipping the remaining file deletions and the thread and agent deletions;
likewise a failing thread deletion skips the agent deletion. -/
theorem c4_cleanup_not_isolated (resT resA : Option String) (tid aid : String) :
    (∀ (f : String) (rest : List String) (resF : String → Option String) (e : String),
       resF f = some e →
       cleanup (f :: rest) resF resT resA tid aid =
         ([Ev.listFiles, Ev.deleteFile f], some e)) ∧
    (∀ (fids : List String) (resF : String → Option String) (e : String),
       (∀ g, resF g = none) → resT = some e →
       cleanup fids resF resT resA tid aid =
         (Ev.listFiles :: (fids.map Ev.deleteFile ++ [Ev.deleteThread tid]), some e)) := by
  constructor
  · intro f rest resF e h
    simp [cleanup, deleteFilesLoop, h]
  · intro fids resF e hall ht
    subst ht
    simp [cleanup, deleteFilesLoop_ok resF hall fids]

/-- Witness for the amended C4 at concrete inputs. -/
theorem c4_cleanup_not_isolated_witness :
    cleanup ["f1"] (fun _ => some "boom") (some "tb") none "t" "a" =
      ([Ev.listFiles, Ev.deleteFile "f1"], some "boom") ∧
    cleanup ["f1"] (fun _ => none) (some "tb") none "t" "a" =
      (Ev.listFiles :: (["f1"].map Ev.deleteFile ++ [Ev.deleteThread "t"]), some "tb") :=
  ⟨(c4_cleanup_not_isolated (some "tb") none "t" "a").1 "f1" [] (fun _ => some "boom")
      "boom" rfl,
   (c4_cleanup_not_isolated (some "tb") none "t" "a").2 ["f1"] (fun _ => none) "tb"
      (fun _ => rfl) rfl⟩

/-- C9: `cleanup` deletes every file returned by the service-wide file
listing — the listing is arbitrary here, so this covers files never
uploaded by this session. -/
theorem c9_cleanup_deletes_all_listed (fids : List String) (tid aid : String) (f : String)
    (h : f ∈ fids) :
    Ev.deleteFile f ∈ (cleanup fids (fun _ => none) none none tid aid).1 := by
  rw [cleanup, deleteFilesLoop_ok (fun _ => none) (fun _ => rfl) fids]
  simp only [List.mem_cons, List.mem_append, List.mem_map]
  exact Or.inr (Or.inl ⟨f, h, rfl⟩)

/-- Witness for C9: a file id that this session never uploaded is still
deleted once it appears in the listing. -/
theorem c9_cleanup_deletes_all_listed_witness :
    Ev.deleteFile "file-from-another-session" ∈
      (cleanup ["file-from-another-session"] (fun _ => none) none none "t" "a").1 :=
  c9_cleanup_deletes_all_listed ["file-from-another-session"] "t" "a"
    "file-from-another-session" (by decide)

/-- C7: the claim is false as stated — a schema-description value that
contains the font placeholder token is not left verbatim: the later
font-id substitution pass rewrites it inside the inserted text. -/
theorem c7_counterexample :
    renderInstructions "{database_schema_string}" "{font_file_id}" (some "F") = "F" ∧
    renderInstructions "{database_schema_string}" "{font_file_id}" (some "F") ≠
      "{font_file_id}" := by
  decide

/-- C7 (amended): each placeholder substitution is literal and single-pass
with respect to its own token: on the template consisting of the schema
placeholder, any schema value — including one containing that placeholder
itself — is inserted verbatim by the schema pass and never re-expanded;
the subsequent font-id pass is then applied to the inserted text when a
font file exists, and nothing more happens when it does not. -/
theorem c7_render_single_pass (d f : String) :
    renderInstructions "{database_schema_string}" d (some f) =
      pyReplace d "{font_file_id}" f ∧
    renderInstructions "{database_schema_string}" d none = d := by
  have h := pyReplace_self_token "{database_schema_string}" d (by decide)
  exact ⟨by simp [renderInstructions, h], by simp [renderInstructions, h]⟩

/-- Witness for the amended C7: a schema value equal to the schema
placeholder token itself is inserted verbatim and survives rendering
untouched when no font file exists. -/
theorem c7_render_single_pass_witness :
    renderInstructions "{database_schema_string}" "{database_schema_string}" (some "F") =
      pyReplace "{database_schema_string}" "{font_file_id}" "F" ∧
    renderInstructions "{database_schema_string}" "{database_schema_string}" none =
      "{database_schema_string}" :=
  c7_render_single_pass "{database_schema_string}" "F"

theorem post_message_events (content : String) (cr sr : Option String) (e : Ev)
    (he : e ∈ (post_message content cr sr).1) :
    e = Ev.createMessage content ∨ e = Ev.streamRun ∨ ∃ m, e = Ev.logPurple m := by
  cases cr with
  | some err => simp [post_message, postMessageTry] at he; tauto
  | none =>
    cases sr with
    | some err => simp [post_message, postMessageTry] at he; tauto
    | none => simp [post_message, postMessageTry] at he; tauto

theorem mainLoop_no_delete (outcome : String → Option String × Option String)
    (inputs : List String) (e : Ev) (he : e ∈ (mainLoop outcome inputs).1) :
    isDeleteEv e = false := by
  induction inputs with
  | nil => simp [mainLoop] at he
  | cons line rest ih =>
    by_cases h1 : pyStrip line = ""
    · rw [mainLoop, if_pos h1] at he
      exact ih he
    · by_cases h2 : pyLower (pyStrip line) = "exit" ∨ pyLower (pyStrip line) = "save"
      · rw [mainLoop, if_neg h1, if_pos h2] at he
        simp at he
      · rw [mainLoop, if_neg h1, if_neg h2] at he
        rcases List.mem_append.mp he with hp | hr
        · rcases post_message_events _ _ _ e hp with h | h | ⟨m, h⟩ <;> subst h <;> rfl
        · exact ih hr

theorem mainLoop_createMessage_content (outcome : String → Option String × Option String)
    (inputs : List String) (c : String)
    (he : Ev.createMessage c ∈ (mainLoop outcome inputs).1) : c ≠ "" := by
  induction inputs with
  | nil => simp [mainLoop] at he
  | cons line rest ih =>
    by_cases h1 : pyStrip line = ""
    · rw [mainLoop, if_pos h1] at he
      exact ih he
    · by_cases h2 : pyLower (pyStrip line) = "exit" ∨ pyLower (pyStrip line) = "save"
      · rw [mainLoop, if_neg h1, if_pos h2] at he
        simp at he
      · rw [mainLoop, if_neg h1, if_neg h2] at he
        rcases List.mem_append.mp he with hp | hr
        · rcases post_message_events _ _ _ _ hp with h | h | ⟨m, h⟩
          · simp only [Ev.createMessage.injEq] at h
            rw [h]
            exact h1
          · exact absurd h (by simp)
          · exact absurd h (by simp)
        · exact ih hr

theorem mainLoop_cmd_indep (outcome outcome' : String → Option String × Option String)
    (inputs : List String) :
    (mainLoop outcome inputs).2 = (mainLoop outcome' inputs).2 := by
  induction inputs with
  | nil => rfl
  | cons line rest ih =>
    by_cases h1 : pyStrip line = ""
    · rw [mainLoop, if_pos h1, mainLoop, if_pos h1]
      exact ih
    · by_cases h2 : pyLower (pyStrip line) = "exit" ∨ pyLower (pyStrip line) = "save"
      · rw [mainLoop, if_neg h1, if_pos h2, mainLoop, if_neg h1, if_pos h2]
      · rw [mainLoop, if_neg h1, if_neg h2, mainLoop, if_neg h1, if_neg h2]
        exact ih

/-- C5: any exception raised while appending the user message or consuming
the streamed run is caught inside `post_message` (no exception ever escapes
it), the error is reported on the user-visible channel, and the interactive
loop's control flow — which prompt ends the session — is unchanged by any
injected turn failures, so the loop continues to the next prompt. -/
theorem c5_turn_errors_nonfatal (content : String) (cr sr : Option String)
    (outcome : String → Option String × Option String) (inputs : List String) :
    (post_message content cr sr).2 = none ∧
    (∀ e, (postMessageTry content cr sr).2 = some e →
       (post_message content cr sr).1 =
         (postMessageTry content cr sr).1 ++
           [Ev.logPurple ("An error occurred posting the message: " ++ e)]) ∧
    (mainLoop outcome inputs).2 = (mainLoop (fun _ => (none, none)) inputs).2 := by
  refine ⟨?_, ?_, mainLoop_cmd_indep outcome (fun _ => (none, none)) inputs⟩
  · cases cr with
    | some err => rfl
    | none => cases sr with
      | some err => rfl
      | none => rfl
  · intro e h
    cases cr with
    | some err =>
      simp [postMessageTry] at h
      subst h
      rfl
    | none =>
      cases sr with
      | some err =>
        simp [postMessageTry] at h
        subst h
        rfl
      | none => simp [postMessageTry] at h

/-- Witness for C5 at a concrete failing turn. -/
theorem c5_turn_errors_nonfatal_witness :
    (post_message "hi" (some "boom") none).2 = none ∧
    (post_message "hi" (some "boom") none).1 =
      (postMessageTry "hi" (some "boom") none).1 ++
        [Ev.logPurple ("An error occurred posting the message: " ++ "boom")] ∧
    (mainLoop (fun _ => (some "boom", none)) ["hi"]).2 =
      (mainLoop (fun _ => (none, none)) ["hi"]).2 := by
  have h := c5_turn_errors_nonfatal "hi" (some "boom") none
    (fun _ => (some "boom", none)) ["hi"]
  exact ⟨h.1, h.2.1 "boom" rfl, h.2.2⟩

/-- C6: a line whose stripped, lowercased form is `save` ends the loop at
once (whatever surrounds it and however it is cased), and a session ending
in `save` performs no delete call at all; a line whose stripped, lowercased
form is `exit` ends the loop at once, and a session ending in `exit` runs
the full cleanup sequence after the loop trace. -/
theorem c6_sentinels (outcome : String → Option String × Option String)
    (inputs : List String) (line : String) (rest fids : List String)
    (resF : String → Option String) (resT resA : Option String) (tid aid : String) :
    (pyLower (pyStrip line) = "save" → mainLoop outcome (line :: rest) = ([], some "save")) ∧
    ((mainLoop outcome inputs).2 = some "save" →
       ∀ e ∈ mainRun outcome inputs fids resF resT resA tid aid, isDeleteEv e = false) ∧
    (pyLower (pyStrip line) = "exit" → mainLoop outcome (line :: rest) = ([], some "exit")) ∧
    ((mainLoop outcome inputs).2 = some "exit" →
       mainRun outcome inputs fids resF resT resA tid aid =
         (mainLoop outcome inputs).1 ++ (cleanup fids resF resT resA tid aid).1) := by
  refine ⟨?_, ?_, ?_, ?_⟩
  · intro h
    have h1 : ¬ pyStrip line = "" := by
      intro h0
      rw [h0] at h
      exact absurd h (by decide)
    rw [mainLoop, if_neg h1, if_pos (Or.inr h), h]
  · intro h e he
    rw [mainRun, h] at he
    simp only [reduceIte] at he
    exact mainLoop_no_delete outcome inputs e he
  · intro h
    have h1 : ¬ pyStrip line = "" := by
      intro h0
      rw [h0] at h
      exact absurd h (by decide)
    rw [mainLoop, if_neg h1, if_pos (Or.inl h), h]
  · intro h
    rw [mainRun, h]
    exact if_neg (by decide)

/-- Witness for C6: `save` and `exit` entered with surrounding whitespace
and upper case. -/
theorem c6_sentinels_witness :
    mainLoop (fun _ => (none, none)) ["  SAVE  "] = ([], some "save") ∧
    (∀ e ∈ mainRun (fun _ => (none, none)) ["  SAVE  "] ["f1"] (fun _ => none) none none
        "t" "a", isDeleteEv e = false) ∧
    mainLoop (fun _ => (none, none)) ["  EXIT  "] = ([], some "exit") ∧
    mainRun (fun _ => (none, none)) ["  EXIT  "] ["f1"] (fun _ => none) none none "t" "a" =
      (mainLoop (fun _ => (none, none)) ["  EXIT  "]).1 ++
        (cleanup ["f1"] (fun _ => none) none none "t" "a").1 := by
  refine ⟨?_, ?_, ?_, ?_⟩
  · exact (c6_sentinels (fun _ => (none, none)) [] "  SAVE  " [] [] (fun _ => none)
      none none "t" "a").1 (by decide)
  · exact (c6_sentinels (fun _ => (none, none)) ["  SAVE  "] "" [] ["f1"] (fun _ => none)
      none none "t" "a").2.1 (by decide)
  · exact (c6_sentinels (fun _ => (none, none)) [] "  EXIT  " [] [] (fun _ => none)
      none none "t" "a").2.2.1 (by decide)
  · exact (c6_sentinels (fun _ => (none, none)) ["  EXIT  "] "" [] ["f1"] (fun _ => none)
      none none "t" "a").2.2.2 (by decide)

/-- C8: a line that is empty or whitespace-only is skipped: the loop
continues on the remaining input unchanged (no call to `post_message`), and
no user message with blank content is ever appended in any run of the
loop. -/
theorem c8_blank_input (outcome : String → Option String × Option String)
    (line : String) (rest inputs : List String) :
    (pyStrip line = "" → mainLoop outcome (line :: rest) = mainLoop outcome rest) ∧
    (∀ c, Ev.createMessage c ∈ (mainLoop outcome inputs).1 → c ≠ "") := by
  constructor
  · intro h
    rw [mainLoop, if_pos h]
  · intro c hc
    exact mainLoop_createMessage_content outcome inputs c hc

/-- Witness for C8: a whitespace-only line leaves the loop where it was,
and a posted message has non-blank content. -/
theorem c8_blank_input_witness :
    mainLoop (fun _ => (none, none)) ["   "] = mainLoop (fun _ => (none, none)) [] ∧
    "hi" ≠ "" := by
  constructor
  · exact (c8_blank_input (fun _ => (none, none)) "   " [] []).1 (by decide)
  · exact (c8_blank_input (fun _ => (none, none)) "   " [] ["hi"]).2 "hi" (by decide)

theorem initTryBody_createAgent (loadRes caRes : Except String String) (enRes : Option String)
    (ctRes : Except String String) (s : String) (fo : Option String) (instr : String)
    (h : Ev.createAgent instr ∈ (initTryBody loadRes caRes enRes ctRes s fo).1) :
    ∃ template, loadRes = Except.ok template ∧ instr = renderInstructions template s fo := by
  rcases loadRes with e | template
  · simp [initTryBody] at h
  · refine ⟨template, rfl, ?_⟩
    rcases caRes with e | aid
    · simpa [initTryBody] using h
    · rcases enRes with _ | e
      · rcases ctRes with e | tid
        · simpa [initTryBody] using h
        · simpa [initTryBody] using h
      · simpa [initTryBody] using h

theorem initializeAgent_createAgent (env : InitEnv) (instr : String)
    (h : Ev.createAgent instr ∈ (initializeAgent env).1) :
    ∃ s fid, env.schemaRes = Except.ok s ∧ env.fontRes = Except.ok fid ∧
      Ev.createAgent instr ∈
        (initTryBody env.loadRes env.createAgentRes env.enableRes env.createThreadRes s
          (some fid)).1 := by
  by_cases h1 : pyFalsy env.instructionsFile = true
  · rw [initializeAgent, if_pos h1] at h
    simp at h
  · rw [initializeAgent, if_neg h1] at h
    by_cases h2 : pyFalsy env.deployment = true
    · rw [if_pos h2] at h
      simp at h
    · rw [if_neg h2] at h
      rcases hv : env.vsRes with e | u
      · rw [hv] at h
        simp [add_agent_tools] at h
      · rw [hv] at h
        rcases hf : env.fontRes with e | fid
        · rw [hf] at h
          simp [add_agent_tools] at h
        · rw [hf] at h
          rcases hc : env.connectRes with _ | e
          · rw [hc] at h
            rcases hs : env.schemaRes with e | s
            · rw [hs] at h
              simp [add_agent_tools] at h
            · rw [hs] at h
              simp only [add_agent_tools] at h
              rcases hT : initTryBody env.loadRes env.createAgentRes env.enableRes
                  env.createThreadRes s (some fid) with ⟨tryEvs, res⟩
              rw [hT] at h
              refine ⟨s, fid, rfl, rfl, ?_⟩
              rw [hT]
              cases res with
              | ok r => simpa using h
              | error e => simpa using h
          · rw [hc] at h
            simp [add_agent_tools] at h

/-! Claim theorems about initialization. -/

/-- C1: the claim is false — an exception raised during tool assembly
(here: the vector-store creation) is NOT caught by `initialize`; it
propagates to the caller, because `add_agent_tools`, the data-engine
connect and the schema fetch run before the try block. -/
theorem c1_counterexample :
    (initializeAgent envToolFail).2 = Except.error "boom" ∧
    (initializeAgent envToolFail).1 = [Ev.createVectorStore] :=
  ⟨rfl, rfl⟩

/-- C1 (amended): only the steps inside the try block are protected: when
tool assembly, the data-engine connect and the schema fetch succeed,
`initialize` never propagates an exception — an exception raised during
instruction loading/rendering, agent creation, auto-dispatch enablement or
thread creation is caught, logged and reported as `(None, None)`;
exceptions from the three earlier steps propagate (see the
counterexample). -/
theorem c1_try_block_catches (env : InitEnv) (fid s : String)
    (hv : env.vsRes = Except.ok ()) (hf : env.fontRes = Except.ok fid)
    (hc : env.connectRes = none) (hs : env.schemaRes = Except.ok s) :
    (∃ r, (initializeAgent env).2 = Except.ok r) ∧
    (∀ e, pyFalsy env.instructionsFile = false → pyFalsy env.deployment = false →
       (initTryBody env.loadRes env.createAgentRes env.enableRes env.createThreadRes s
           (some fid)).2 = Except.error e →
       (initializeAgent env).2 = Except.ok (none, none) ∧
       Ev.logError ("An error occurred initializing the agent: " ++ e) ∈
         (initializeAgent env).1) := by
  by_cases h1 : pyFalsy env.instructionsFile = true
  · refine ⟨⟨(none, none), ?_⟩, ?_⟩
    · rw [initializeAgent, if_pos h1]
    · intro e hif _ _
      rw [hif] at h1
      exact absurd h1 (by decide)
  · by_cases h2 : pyFalsy env.deployment = true
    · refine ⟨⟨(none, none), ?_⟩, ?_⟩
      · rw [initializeAgent, if_neg h1, if_pos h2]
      · intro e _ hdep _
        rw [hdep] at h2
        exact absurd h2 (by decide)
    · have hred : initializeAgent env =
          match initTryBody env.loadRes env.createAgentRes env.enableRes env.createThreadRes
              s (some fid) with
          | (tryEvs, Except.ok r) =>
            ([Ev.createVectorStore, Ev.uploadFile] ++
               Ev.connectData :: Ev.getSchema :: tryEvs, Except.ok r)
          | (tryEvs, Except.error e) =>
            ([Ev.createVectorStore, Ev.uploadFile] ++ Ev.connectData :: Ev.getSchema ::
               (tryEvs ++
                 [Ev.logError ("An error occurred initializing the agent: " ++ e),
                  Ev.logError "Please ensure you have enabled an instructions file."]),
             Except.ok (none, none)) := by
        rw [initializeAgent, if_neg h1, if_neg h2, hv, hf, hc, hs]
        rfl
      rcases hT : initTryBody env.loadRes env.createAgentRes env.enableRes
          env.createThreadRes s (some fid) with ⟨tryEvs, res⟩
      cases res with
      | ok r =>
        refine ⟨⟨r, ?_⟩, ?_⟩
        · rw [hred, hT]
        · intro e _ _ htry
          simp at htry
      | error err =>
        refine ⟨⟨(none, none), ?_⟩, ?_⟩
        · rw [hred, hT]
        · intro e _ _ htry
          simp at htry
          subst htry
          refine ⟨by rw [hred, hT], ?_⟩
          rw [hred, hT]
          simp

/-- Witness for the amended C1: a run failing at agent creation yields
`(None, None)` with the error logged, and never a propagated exception. -/
theorem c1_try_block_catches_witness :
    (∃ r, (initializeAgent envAgentFail).2 = Except.ok r) ∧
    ((initializeAgent envAgentFail).2 = Except.ok (none, none) ∧
     Ev.logError ("An error occurred initializing the agent: " ++ "agent-fail") ∈
       (initializeAgent envAgentFail).1) := by
  have h := c1_try_block_catches envAgentFail "font-1" "schema" rfl rfl rfl rfl
  exact ⟨h.1, h.2 "agent-fail" (by decide) (by decide) rfl⟩

/-- C2: when no instruction template is selected or the model deployment
name is unset (Python-falsy), `initialize` returns `(None, None)` and its
trace contains no resource-creating remote call (no file upload, no
vector-store creation, no agent creation, no thread creation). -/
theorem c2_guard_no_resources (env : InitEnv)
    (h : pyFalsy env.instructionsFile = true ∨ pyFalsy env.deployment = true) :
    (initializeAgent env).2 = Except.ok (none, none) ∧
    ∀ e ∈ (initializeAgent env).1, isResourceCreate e = false := by
  by_cases h1 : pyFalsy env.instructionsFile = true
  · constructor
    · rw [initializeAgent, if_pos h1]
    · intro e he
      rw [initializeAgent, if_pos h1] at he
      simp at he
  · have h2 : pyFalsy env.deployment = true := h.resolve_left h1
    constructor
    · rw [initializeAgent, if_neg h1, if_pos h2]
    · intro e he
      rw [initializeAgent, if_neg h1, if_pos h2] at he
      simp at he
      rw [he]
      rfl

/-- Witness for C2: a configuration with no template selected. -/
theorem c2_guard_no_resources_witness :
    (initializeAgent envNoTemplate).2 = Except.ok (none, none) ∧
    ∀ e ∈ (initializeAgent envNoTemplate).1, isResourceCreate e = false :=
  c2_guard_no_resources envNoTemplate (Or.inl rfl)

/-- C10: last write wins on the module-level template variable, so when
`initialize` runs the selected template is the multilingual
code-interpreter one; under that value the missing-template branch (the
only way to return `(None, None)` silently, with an empty trace) is
unreachable; whenever tool assembly starts the font asset is uploaded; and
every agent ever created is created with instructions rendered with a
present font-file id (the font id substitution is always applied). -/
theorem c10_template_fixed :
    INSTRUCTIONS_FILE = some "instructions/code_interpreter_multilingual.txt" ∧
    pyFalsy INSTRUCTIONS_FILE = false ∧
    (∀ env : InitEnv, env.instructionsFile = INSTRUCTIONS_FILE →
       initializeAgent env ≠ ([], Except.ok (none, none))) ∧
    (∀ env : InitEnv, env.instructionsFile = INSTRUCTIONS_FILE →
       pyFalsy env.deployment = false → env.vsRes = Except.ok () →
       Ev.uploadFile ∈ (initializeAgent env).1) ∧
    (∀ (env : InitEnv) (instr : String), env.instructionsFile = INSTRUCTIONS_FILE →
       Ev.createAgent instr ∈ (initializeAgent env).1 →
       ∃ template s fid, env.loadRes = Except.ok template ∧
         env.schemaRes = Except.ok s ∧ env.fontRes = Except.ok fid ∧
         instr = renderInstructions template s (some fid)) := by
  refine ⟨rfl, rfl, ?_, ?_, ?_⟩
  · intro env h
    have h1 : ¬ pyFalsy env.instructionsFile = true := by
      rw [h]
      decide
    rw [initializeAgent, if_neg h1]
    by_cases h2 : pyFalsy env.deployment = true
    · rw [if_pos h2]
      simp
    · rw [if_neg h2]
      rcases hv : env.vsRes with e | u
      · simp [add_agent_tools]
      · rcases hf : env.fontRes with e | fid
        · simp [add_agent_tools]
        · rcases hc : env.connectRes with _ | e
          · rcases hs : env.schemaRes with e | s
            · simp [add_agent_tools]
            · simp only [add_agent_tools]
              rcases hT : initTryBody env.loadRes env.createAgentRes env.enableRes
                  env.createThreadRes s (some fid) with ⟨tryEvs, res⟩
              cases res with
              | ok r => simp
              | error e => simp
          · simp [add_agent_tools]
  · intro env h h2 hv
    have h1 : ¬ pyFalsy env.instructionsFile = true := by
      rw [h]
      decide
    rw [initializeAgent, if_neg h1, if_neg (by rw [h2]; decide), hv]
    rcases hf : env.fontRes with e | fid
    · simp [add_agent_tools]
    · rcases hc : env.connectRes with _ | e
      · rcases hs : env.schemaRes with e | s
        · simp [add_agent_tools]
        · simp only [add_agent_tools]
          rcases hT : initTryBody env.loadRes env.createAgentRes env.enableRes
              env.createThreadRes s (some fid) with ⟨tryEvs, res⟩
          cases res with
          | ok r => simp
          | error e => simp
      · simp [add_agent_tools]
  · intro env instr _h hmem
    obtain ⟨s, fid, hs, hf, hmem'⟩ := initializeAgent_createAgent env instr hmem
    obtain ⟨template, hl, hi⟩ := initTryBody_createAgent env.loadRes env.createAgentRes
      env.enableRes env.createThreadRes s (some fid) instr hmem'
    exact ⟨template, s, fid, hl, hs, hf, hi⟩

/-- Witness for C10 on a concrete successful run under the module-level
template value. -/
theorem c10_template_fixed_witness :
    initializeAgent envProvisionOk ≠ ([], Except.ok (none, none)) ∧
    Ev.uploadFile ∈ (initializeAgent envProvisionOk).1 ∧
    (∃ template s fid, envProvisionOk.loadRes = Except.ok template ∧
       envProvisionOk.schemaRes = Except.ok s ∧ envProvisionOk.fontRes = Except.ok fid ∧
       "template" = renderInstructions template s (some fid)) := by
  refine ⟨c10_template_fixed.2.2.1 envProvisionOk rfl, ?_, ?_⟩
  · exact c10_template_fixed.2.2.2.1 envProvisionOk rfl (by decide) rfl
  · exact c10_template_fixed.2.2.2.2 envProvisionOk "template" rfl (by decide)

end Workshop
